import Mathlib

/-!
Verification of the task-list manager (`SIMPLE_TASK_LIST.py`).

The program keeps a pandas `DataFrame` with columns `description` and
`priority`, persists it to `tasks.csv`, and trains an sklearn text
classifier on every add.  We embed the data model shallowly:

* a `DataFrame` is a list of column names together with labelled rows
  (a row label models the pandas index entry, which matters because the
  source filters rows without resetting the index and later performs
  label-based lookups);
* a cell is a piece of text (pandas' numeric/NA type inference on
  `read_csv` is outside this model: all cells are modelled as strings);
* the trained classifier is abstracted as a prediction function
  `String → String`; retraining is abstracted as applying a fitting
  function `DataFrame → PModel` to the current table;
* `random.choice(seq)` is modelled by an arbitrary draw `r` with
  `r < seq.length` (the value produced by `random._randbelow`).
-/

/-- One pandas `DataFrame`: column names plus rows.  Each row carries its
pandas index label (a `Nat`) and its list of cells (as text). -/
structure DataFrame where
  columns : List String
  rows : List (Nat × List String)
deriving DecidableEq, Repr

/-- Reading a single cell of a row by column name, pandas-style: locate the
column by name and index into the row's cells.  A missing column or a short
row yields the `"NaN"` marker (such cells never occur on the two-column
tables the program builds). -/
def getCell (cols : List String) (cells : List String) (c : String) : String :=
  match cols.findIdx? (fun x => x == c) with
  | some i => cells.getD i "NaN"
  | none => "NaN"

/-- The empty table built in `__init__`:
`pd.DataFrame(columns=['description', 'priority'])`. -/
def emptyTasks : DataFrame :=
  { columns := ["description", "priority"], rows := [] }

/-- Realigning a row's cells from its source frame's columns to a target
column list, as `pd.concat` does when gluing frames; absent columns are
filled with the `"NaN"` marker. -/
def alignCells (srcCols : List String) (cells : List String) (cols : List String) :
    List String :=
  cols.map (fun c => getCell srcCols cells c)

/-- Modelling `pd.concat([a, b], ignore_index=True)`: the column union keeps
the first frame's columns first, rows of both frames are realigned to that
union, and `ignore_index=True` relabels the result `0, 1, 2, …`. -/
def dfConcatIgnoreIndex (a b : DataFrame) : DataFrame :=
  let cols := a.columns ++ b.columns.filter (fun c => !(a.columns.contains c))
  { columns := cols
  , rows := ((a.rows.map (fun r => alignCells a.columns r.2 cols)) ++
             (b.rows.map (fun r => alignCells b.columns r.2 cols))).enum }

/-- The one-row frame built inside `add_task`:
`pd.DataFrame({'description': [description], 'priority': [priority]})`. -/
def singleTaskFrame (d p : String) : DataFrame :=
  { columns := ["description", "priority"], rows := [(0, [d, p])] }

/-- Effect of `add_task` on the stored table (line 43):
`self.tasks = pd.concat([self.tasks, new_task], ignore_index=True)`. -/
def add_task (df : DataFrame) (d p : String) : DataFrame :=
  dfConcatIgnoreIndex df (singleTaskFrame d p)

/-- Effect of `remove_task` on the stored table (line 54):
`self.tasks = self.tasks[self.tasks['description'] != description]`.
Boolean-mask filtering keeps each surviving row's index label unchanged. -/
def remove_task (df : DataFrame) (d : String) : DataFrame :=
  { df with rows := df.rows.filter (fun row => getCell df.columns row.2 "description" != d) }

/-- Python string comparison (`<`) on the underlying code points. -/
def pyStrLtAux : List Char → List Char → Bool
  | [], [] => false
  | [], _ :: _ => true
  | _ :: _, [] => false
  | a :: as, b :: bs =>
    if a.toNat < b.toNat then true
    else if b.toNat < a.toNat then false
    else pyStrLtAux as bs

/-- Python `a < b` on strings. -/
def pyStrLt (a b : String) : Bool := pyStrLtAux a.data b.data

/-- Python `a <= b` on strings (total order: not `b < a`). -/
def pyStrLe (a b : String) : Bool := !(pyStrLt b a)

/-- The sort key used by `sort_values(by='priority')`: the row's priority
cell. -/
def priorityKey (df : DataFrame) (row : Nat × List String) : String :=
  getCell df.columns row.2 "priority"

/-- Effect of `prioritize_tasks` on the stored table (line 66):
`self.tasks.sort_values(by='priority', inplace=True)` — rows reordered by
the plain string order of the priority cell, labels kept.  pandas' default
quicksort does not promise an order among equal keys; the model uses a
stable insertion sort, which is one of the orders pandas may produce. -/
def prioritize_tasks (df : DataFrame) : DataFrame :=
  { df with
    rows := List.insertionSort
      (fun a b => pyStrLe (priorityKey df a) (priorityKey df b) = true) df.rows }

/-- What `list_tasks` reports: the empty-table message or the full table. -/
inductive Listing where
  | noTasks
  | table (rows : List (Nat × List String))
deriving DecidableEq, Repr

/-- `list_tasks` (lines 57-62): `print("No tasks available.")` on an empty
table, otherwise `print(self.tasks)`. -/
def list_tasks (df : DataFrame) : Listing :=
  if df.rows.isEmpty then .noTasks else .table df.rows

/-- Outcome of one `recommend_task` call.  `keyError` is the uncaught
`KeyError` raised when `random.choice` indexes the filtered Series with an
integer that is not one of its index labels; `indexError` is the uncaught
`IndexError` `random.choice` raises on an empty sequence. -/
inductive RecommendResult where
  | noTasks
  | recommended (description priority : String)
  | indexError
  | keyError
deriving DecidableEq, Repr

/-- Line 74: `predictions = self.model.predict(self.tasks['description'])` —
the classifier's label for every current description, positionally. -/
def predictionsOf (predict : String → String) (df : DataFrame) : List String :=
  df.rows.map (fun row => predict (getCell df.columns row.2 "description"))

/-- The Series `self.tasks[self.tasks['priority'] == predictions[0]]`
restricted in line 75: the rows whose stored priority equals the label
predicted for the first row, keeping their index labels. -/
def recommendBucket (predict : String → String) (df : DataFrame) :
    List (Nat × List String) :=
  df.rows.filter
    (fun row => getCell df.columns row.2 "priority" == (predictionsOf predict df).headD "")

/-- `recommend_task` (lines 69-76).  `r` is the integer drawn by
`random.choice`, always `< len(bucket)`.  `random.choice(series)` evaluates
`series[r]`, and on an integer-indexed pandas Series that is a *label*
lookup: it returns the row labelled `r` if one exists and raises `KeyError`
otherwise.  (Should a table carry duplicate labels — which the program's own
operations never produce — the first row with the drawn label stands in for
pandas' duplicate-label Series result.) -/
def recommend_task (predict : String → String) (df : DataFrame) (r : Nat) :
    RecommendResult :=
  if df.rows.isEmpty then .noTasks
  else if (recommendBucket predict df).isEmpty then .indexError
  else
    match (recommendBucket predict df).find? (fun row => row.1 == r) with
    | some row =>
        .recommended (getCell df.columns row.2 "description")
          ((predictionsOf predict df).headD "")
    | none => .keyError

/-! ## CSV serialization (`to_csv(index=False)` / `read_csv`) -/

/-- Does `to_csv`'s minimal quoting have to quote this cell?  (Cells holding
the delimiter, the quote character, or a line break are quoted.) -/
def needsQuote (s : List Char) : Bool :=
  s.any (fun c => (c == ',') || (c == '"') || (c == '\n') || (c == '\r'))

/-- Doubling the quote characters inside a quoted cell. -/
def escQ : List Char → List Char
  | [] => []
  | c :: rest => if c = '"' then '"' :: '"' :: escQ rest else c :: escQ rest

/-- One serialized cell under minimal quoting. -/
def encodeCell (s : List Char) : List Char :=
  if needsQuote s then '"' :: (escQ s ++ ['"']) else s

/-- One serialized CSV record: cells joined with commas. -/
def encodeRow : List (List Char) → List Char
  | [] => []
  | [c] => encodeCell c
  | c :: c2 :: cs => encodeCell c ++ ',' :: encodeRow (c2 :: cs)

/-- A serialized CSV file: every record (header included) is terminated by a
newline, as `to_csv` writes it. -/
def encodeFile : List (List (List Char)) → List Char
  | [] => []
  | r :: rs => encodeRow r ++ '\n' :: encodeFile rs

/-- `save_tasks` / `to_csv('tasks.csv', index=False)` (line 25): header row
first, then the data rows; index labels are not written. -/
def to_csv (df : DataFrame) : String :=
  String.mk (encodeFile ((df.columns.map String.data) ::
    df.rows.map (fun r => r.2.map String.data)))

/-- Does the remaining input begin at a cell boundary (end of input, a
comma, or a line break)?  Inside an encoded file, a cell encoding is only
ever followed by such a position. -/
def sepStart : List Char → Bool
  | [] => true
  | c :: _ => (c == ',') || (c == '\n')

/-- Reading one quoted cell: stops at the closing quote, turning each
doubled quote into a literal one.  Returns the cell and the unconsumed
input. -/
def parseQuoted : List Char → List Char × List Char
  | [] => ([], [])
  | c :: rest =>
    if c = '"' then
      match rest with
      | [] => ([], [])
      | q :: rest2 =>
        if q = '"' then
          let res := parseQuoted rest2
          ('"' :: res.1, res.2)
        else ([], rest)
    else
      let res := parseQuoted rest
      (c :: res.1, res.2)

/-- Reading one unquoted cell: stops before a comma or a line break. -/
def parseBare : List Char → List Char × List Char
  | [] => ([], [])
  | c :: rest =>
    if c = ',' ∨ c = '\n' then ([], c :: rest)
    else
      let res := parseBare rest
      (c :: res.1, res.2)

/-- Reading one cell: quoted if it opens with a quote character. -/
def parseCell (input : List Char) : List Char × List Char :=
  match input with
  | [] => ([], [])
  | c :: rest => if c = '"' then parseQuoted rest else parseBare (c :: rest)

/-- Reading one CSV record: cells separated by commas, ended by a newline or
the end of input.  The fuel bounds the number of cells; the callers pass
more fuel than any input can consume. -/
def parseRowAuxF : Nat → List Char → List (List Char) × List Char
  | 0, input => ([], input)
  | fuel + 1, input =>
    let cell := (parseCell input).1
    let rest := (parseCell input).2
    if rest.head? = some ',' then
      let res := parseRowAuxF fuel rest.tail
      (cell :: res.1, res.2)
    else if rest.head? = some '\n' then ([cell], rest.tail)
    else ([cell], rest)

/-- Reading every CSV record.  Blank lines are skipped, as `read_csv` does
by default (`skip_blank_lines=True`).  The fuel bounds the number of
records; the callers pass more fuel than any input can consume. -/
def parseRowsF : Nat → List Char → List (List (List Char))
  | 0, _ => []
  | fuel + 1, input =>
    if input = [] then []
    else
      let res := parseRowAuxF (input.length + 1) input
      if res.1 = [[]] then parseRowsF fuel res.2
      else res.1 :: parseRowsF fuel res.2

/-- The failures `pd.read_csv` can raise on text input: `EmptyDataError`
when there is no header to parse, and the tokenizer's `ParserError` when a
record holds more fields than the header. -/
inductive ParseError where
  | emptyData
  | tokenizeError
deriving DecidableEq, Repr

/-- The tokenization stage of `pd.read_csv` (line 19) on file content: the
first record names the columns, the remaining records are the data rows,
labelled `0, 1, 2, …`.  A record with more fields than the header is a
tokenizer error; a record with fewer fields is padded with the `"NaN"`
marker (which the conversion stage below turns into a missing value, as
pandas does).  This stage keeps every field as text; `read_csv` after
tokenizing also converts fields — default NA markers become NaN and
all-numeric columns change dtype — which is modelled by `pdConvertFrame`;
the composite is `pd_read_csv`. -/
def read_csv (s : String) : Except ParseError DataFrame :=
  match parseRowsF (s.data.length + 1) s.data with
  | [] => .error .emptyData
  | header :: dataRows =>
    if dataRows.all (fun r => r.length ≤ header.length) then
      .ok { columns := header.map (fun c => String.mk c)
          , rows := (dataRows.map (fun r =>
              r.map (fun c => String.mk c) ++
                List.replicate (header.length - r.length) "NaN")).enum }
    else .error .tokenizeError

/-! ## The conversion stage of `pd.read_csv`: NA markers and dtype inference -/

/-- The field texts `read_csv` treats as missing by default
(`na_values`, with `keep_default_na=True`): each becomes the float NaN. -/
def naStrings : List String :=
  ["", "#N/A", "#N/A N/A", "#NA", "-1.#IND", "-1.#QNAN", "-NaN", "-nan",
   "1.#IND", "1.#QNAN", "<NA>", "N/A", "NA", "NULL", "NaN", "None",
   "n/a", "nan", "null"]

/-- Does a field parse as an integer for the tokenizer's converter: an
optional sign followed by one or more digits?  (Literals beyond the int64
range, where pandas falls back to other dtypes, are not modelled; no
theorem below depends on them.) -/
def intLikeAux : List Char → Bool
  | [] => false
  | c :: rest =>
    if c = '-' ∨ c = '+' then !rest.isEmpty && rest.all Char.isDigit
    else (c :: rest).all Char.isDigit

/-- `intLikeAux` on a field's text. -/
def intLike (s : String) : Bool := intLikeAux s.data

/-- The numeric value of a digit string. -/
def digitsVal (l : List Char) : Nat :=
  l.foldl (fun acc c => acc * 10 + (c.toNat - 48)) 0

/-- The integer an `intLike` field denotes. -/
def parsedInt (s : String) : Int :=
  match s.data with
  | '-' :: rest => -(digitsVal rest : Int)
  | '+' :: rest => (digitsVal rest : Int)
  | l => (digitsVal l : Int)

/-- A character that can occur in a numeric field (digit, sign, decimal
point, exponent letter, padding whitespace). -/
def numericChar (c : Char) : Bool :=
  c.isDigit || c == '+' || c == '-' || c == '.' || c == 'e' || c == 'E' ||
    c == ' ' || c == '\t'

/-- An infinity word the float converter accepts. -/
def infWord (l : List Char) : Bool :=
  let t := (l.filter (fun c => !(c == ' ' || c == '\t'))).map Char.toLower
  t == "inf".data || t == "+inf".data || t == "-inf".data ||
    t == "infinity".data || t == "+infinity".data || t == "-infinity".data

/-- Could the converter read this field as a number (integer or float)?
This deliberately over-approximates the parsers: any field pandas converts
to a number satisfies it, so a field failing it surely stays text. -/
def numericLike (s : String) : Bool :=
  (s.data.any Char.isDigit && s.data.all numericChar) || infWord s.data

/-- Could the converter read this field as a boolean?  Over-approximates
the tokenizer's `True`/`TRUE`/`true`/`False`/`FALSE`/`false` forms. -/
def boolLike (s : String) : Bool :=
  s.data.map Char.toLower == "true".data || s.data.map Char.toLower == "false".data

/-- A field certain to survive `read_csv`'s default conversions as the
same text: not an NA marker, not numeric-looking, not boolean-looking.
Because the last two tests over-approximate the converters, a `pdPlainText`
field is never converted. -/
def pdPlainText (s : String) : Bool :=
  !(naStrings.contains s) && !(numericLike s) && !(boolLike s)

/-- A cell value after `read_csv`'s conversions: unchanged text, a missing
value (the float NaN), or an inferred integer.  (Float and boolean column
values are not modelled: floating point is outside the embedding.  Every
general theorem about loaded values therefore guards its cells with
`pdPlainText`, which excludes such columns; concrete counterexamples stay
inside the exactly-modelled NA and integer cases.) -/
inductive PdValue where
  | str (s : String)
  | nan
  | int (n : Int)
deriving DecidableEq, Repr

/-- A `DataFrame` after the conversion stage: same columns and labels,
converted cell values. -/
structure PdFrame where
  columns : List String
  rows : List (Nat × List PdValue)
deriving DecidableEq, Repr

/-- The fields of column `j`, top to bottom. -/
def colFields (df : DataFrame) (j : Nat) : List String :=
  df.rows.map (fun r => (r.2).getD j "")

/-- Does column `j` infer to an integer dtype: a non-empty frame all of
whose fields in that column are integer literals?  (A numeric column that
also holds NA markers infers to float64 in pandas — a float case the model
does not cover; `pdPlainText` guards exclude it.) -/
def colIsInt (df : DataFrame) (j : Nat) : Bool :=
  !(df.rows.isEmpty) && (colFields df j).all intLike

/-- Converting one field: integer columns parse every field; elsewhere the
default NA markers become missing values and the rest stays text. -/
def pdConvertCell (isIntCol : Bool) (f : String) : PdValue :=
  if isIntCol then .int (parsedInt f)
  else if naStrings.contains f then .nan
  else .str f

/-- The conversion stage of `pd.read_csv` applied to a tokenized frame:
labels and columns kept, each cell converted under its column's inferred
dtype. -/
def pdConvertFrame (df : DataFrame) : PdFrame :=
  { columns := df.columns
  , rows := df.rows.map (fun r =>
      (r.1, (r.2).enum.map (fun ic => pdConvertCell (colIsInt df ic.1) ic.2))) }

/-- `pd.read_csv` in full: tokenize, then convert. -/
def pd_read_csv (s : String) : Except ParseError PdFrame :=
  (read_csv s).map pdConvertFrame

/-! ## The `TaskManager` object -/

/-- The trained sklearn pipeline, abstracted to what the program observes of
it: a map from a description to a predicted priority label. -/
def PModel := String → String

/-- The mutable state of a `TaskManager`: the in-memory table, the trained
model, and the content of `tasks.csv` (`none` when the file is missing). -/
structure TMState where
  tasks : DataFrame
  model : PModel
  file : Option String

/-- `save_tasks` (lines 23-25): overwrite `tasks.csv` with the current
table. -/
def save_tasks (tm : TMState) : TMState :=
  { tm with file := some (to_csv tm.tasks) }

/-- `train_model` (lines 27-32) in the successful case: refit the pipeline
from the current table.  (sklearn raises on degenerate training data — an
empty table, or descriptions whose vocabulary is empty; `tm_init` models
the empty-table failure, the one startup reaches.) -/
def train_model (fit : DataFrame → PModel) (tm : TMState) : TMState :=
  { tm with model := fit tm.tasks }

/-- `add_task` (lines 34-45): append the row, save, retrain. -/
def add_taskM (fit : DataFrame → PModel) (tm : TMState) (d p : String) : TMState :=
  train_model fit (save_tasks { tm with tasks := add_task tm.tasks d p })

/-- `remove_task` (lines 47-55): filter the table, save.  No retraining. -/
def remove_taskM (tm : TMState) (d : String) : TMState :=
  save_tasks { tm with tasks := remove_task tm.tasks d }

/-- `prioritize_tasks` (lines 64-67): sort the table, save.  No
retraining. -/
def prioritize_tasksM (tm : TMState) : TMState :=
  save_tasks { tm with tasks := prioritize_tasks tm.tasks }

/-- `load_tasks` (lines 16-21): parse `tasks.csv`; only a missing file
(`FileNotFoundError`) is caught, leaving the empty two-column table from
`__init__`; any parse failure propagates.  Stated at the tokenization
level: the conversion stage (`pdConvertFrame`) changes neither row count
nor the error structure, the only facts about loading the startup claims
use. -/
def load_tasks : Option String → Except ParseError DataFrame
  | none => .ok emptyTasks
  | some s => read_csv s

/-- How constructing a `TaskManager` can fail: a propagated parser error
from `load_tasks`, or the `ValueError` sklearn raises in `train_model` when
the pipeline is fitted on an empty table. -/
inductive InitError where
  | loadFailed (e : ParseError)
  | emptyFit
deriving DecidableEq, Repr

/-- `__init__` (lines 10-14): start from the empty table, load, then train.
Training on the loaded table raises when the table has no rows (fitting on
zero samples); on a non-empty table the fit is abstracted by `fit`. -/
def tm_init (fit : DataFrame → PModel) (file : Option String) :
    Except InitError TMState :=
  match load_tasks file with
  | .error e => .error (.loadFailed e)
  | .ok tasks =>
    if tasks.rows.isEmpty then .error .emptyFit
    else .ok { tasks := tasks, model := fit tasks, file := file }

/-! ## The interactive menu -/

/-- Python `str.capitalize()` (ASCII model): first character uppercased,
the rest lowercased. -/
def pyCapitalize (s : String) : String :=
  match s.data with
  | [] => ""
  | c :: rest => String.mk (c.toUpper :: rest.map Char.toLower)

/-- The line the menu prints for one choice (`listed` carries what
`list_tasks` renders, `recommendMsg` the outcome of `recommend_task`). -/
inductive MenuMsg where
  | taskAdded
  | invalidPriority
  | taskRemoved
  | listed (l : Listing)
  | prioritized
  | recommendMsg (res : RecommendResult)
  | goodbye
  | invalidOption
deriving Repr

/-- What one iteration of `main_menu` produces: the state afterwards, the
reported message, and whether the loop runs again (`false` on exit and on
the uncaught exceptions `recommend_task` can raise). -/
structure StepOut where
  state : TMState
  message : MenuMsg
  continues : Bool

/-- One iteration of `main_menu` (lines 78-120), after the choice and the
branch's `input()` values have been read; `r` is the random draw consumed
when choice 5 reaches `random.choice`. -/
def menu_step (fit : DataFrame → PModel) (tm : TMState) (choice : String)
    (descInput priorityInput : String) (r : Nat) : StepOut :=
  if choice = "1" then
    let p := pyCapitalize priorityInput
    if p = "Low" ∨ p = "Medium" ∨ p = "High" then
      { state := add_taskM fit tm descInput p, message := .taskAdded, continues := true }
    else
      { state := tm, message := .invalidPriority, continues := true }
  else if choice = "2" then
    { state := remove_taskM tm descInput, message := .taskRemoved, continues := true }
  else if choice = "3" then
    { state := tm, message := .listed (list_tasks tm.tasks), continues := true }
  else if choice = "4" then
    { state := prioritize_tasksM tm, message := .prioritized, continues := true }
  else if choice = "5" then
    let res := recommend_task tm.model tm.tasks r
    { state := tm, message := .recommendMsg res
    , continues := res != .indexError && res != .keyError }
  else if choice = "6" then
    { state := tm, message := .goodbye, continues := false }
  else
    { state := tm, message := .invalidOption, continues := true }

/-! ## Well-formedness and concrete data used by the claims -/

/-- A well-formed task table: exactly the two defined columns, and every
row rectangular (one cell per column). -/
def WF (df : DataFrame) : Prop :=
  df.columns = ["description", "priority"] ∧ ∀ r ∈ df.rows, (r.2).length = 2

instance (df : DataFrame) : Decidable (WF df) := by
  unfold WF; infer_instance

/-- The direct reading of a row's description field (first cell). -/
def descField (row : Nat × List String) : String := row.2.headD "NaN"

/-- The direct reading of a row's priority field (second cell). -/
def priorityField (row : Nat × List String) : String := (row.2.drop 1).headD "NaN"

/-- A two-task table as the program builds it (labels `0` and `1`). -/
def twoTaskFrame : DataFrame :=
  { columns := ["description", "priority"]
  , rows := [(0, ["alpha", "High"]), (1, ["beta", "Low"])] }

/-- A table with duplicate and case-variant descriptions (labels as the
program would assign them). -/
def dupFrame : DataFrame :=
  { columns := ["description", "priority"]
  , rows := [(0, ["buy milk", "Low"]), (1, ["Buy milk", "High"]),
             (2, ["buy milk", "High"]), (3, ["write report", "Medium"])] }

/-- A well-formed table whose description column is all-numeric text, as a
user entering the description `123` produces. -/
def numFrame : DataFrame :=
  { columns := ["description", "priority"], rows := [(0, ["123", "High"])] }

/-- A well-formed table whose first description is the empty string, as a
user entering an empty description produces. -/
def naFrame : DataFrame :=
  { columns := ["description", "priority"]
  , rows := [(0, ["", "High"]), (1, ["buy milk", "Low"])] }

/-- A fixed trained model used to instantiate theorems at concrete inputs. -/
def fit0 : DataFrame → PModel := fun _ _ => "Low"

/-- A fixed manager state used to instantiate theorems at concrete inputs. -/
def tm0 : TMState :=
  { tasks := twoTaskFrame, model := fun _ => "Low", file := none }

/-! ## Helper lemmas: the Python string order -/

/-- Rebuilding a string from its characters is the identity. -/
theorem string_mk_data (s : String) : String.mk s.data = s := rfl

/-- Characters with equal code points are equal. -/
theorem char_toNat_inj {a b : Char} (h : a.toNat = b.toNat) : a = b :=
  Char.ext (UInt32.toNat.inj h)

/-- The code-point order is irreflexive. -/
theorem pyStrLtAux_irrefl (l : List Char) : pyStrLtAux l l = false := by
  induction l with
  | nil => rfl
  | cons c cs ih => simp [pyStrLtAux, Nat.lt_irrefl, ih]

/-- The code-point order is transitive. -/
theorem pyStrLtAux_trans :
    ∀ (a b c : List Char), pyStrLtAux a b = true → pyStrLtAux b c = true →
      pyStrLtAux a c = true := by
  intro a
  induction a with
  | nil =>
    intro b c hab hbc
    cases b with
    | nil => simp [pyStrLtAux] at hab
    | cons y ys =>
      cases c with
      | nil => simp [pyStrLtAux] at hbc
      | cons z zs => simp [pyStrLtAux]
  | cons x xs ih =>
    intro b c hab hbc
    cases b with
    | nil => simp [pyStrLtAux] at hab
    | cons y ys =>
      cases c with
      | nil => simp [pyStrLtAux] at hbc
      | cons z zs =>
        simp only [pyStrLtAux] at hab hbc ⊢
        by_cases h1 : x.toNat < y.toNat
        · by_cases h2 : y.toNat < z.toNat
          · simp [Nat.lt_trans h1 h2]
          · by_cases h3 : z.toNat < y.toNat
            · simp [h2, h3] at hbc
            · have hlt : x.toNat < z.toNat := by omega
              simp [hlt]
        · by_cases h1b : y.toNat < x.toNat
          · simp [h1, h1b] at hab
          · by_cases h2 : y.toNat < z.toNat
            · have hlt : x.toNat < z.toNat := by omega
              simp [hlt]
            · by_cases h3 : z.toNat < y.toNat
              · simp [h2, h3] at hbc
              · have h4 : ¬ x.toNat < z.toNat := by omega
                have h5 : ¬ z.toNat < x.toNat := by omega
                simp only [h1, h1b, if_false, if_neg] at hab
                simp only [h2, h3, if_false, if_neg] at hbc
                simp only [h4, h5, if_false, if_neg]
                exact ih ys zs hab hbc

/-- Two lists neither of which is below the other are equal. -/
theorem pyStrLtAux_conn :
    ∀ (a b : List Char), pyStrLtAux a b = false → pyStrLtAux b a = false → a = b := by
  intro a
  induction a with
  | nil =>
    intro b hab _
    cases b with
    | nil => rfl
    | cons y ys => simp [pyStrLtAux] at hab
  | cons x xs ih =>
    intro b hab hba
    cases b with
    | nil => simp [pyStrLtAux] at hba
    | cons y ys =>
      simp only [pyStrLtAux] at hab hba
      by_cases h1 : x.toNat < y.toNat
      · simp [h1] at hab
      · by_cases h2 : y.toNat < x.toNat
        · simp [h1, h2] at hba
        · have hxy : x = y := char_toNat_inj (by omega)
          subst hxy
          simp only [h1, h2, if_false, if_neg] at hab hba
          rw [ih ys hab hba]

/-- Python `<=` on strings is total. -/
theorem pyStrLe_total (a b : String) : pyStrLe a b = true ∨ pyStrLe b a = true := by
  unfold pyStrLe pyStrLt
  by_cases h : pyStrLtAux b.data a.data = true
  · right
    by_cases h2 : pyStrLtAux a.data b.data = true
    · have := pyStrLtAux_trans _ _ _ h2 h
      simp [pyStrLtAux_irrefl] at this
    · simp [Bool.not_eq_true] at h2
      simp [h2]
  · left
    simp [Bool.not_eq_true] at h
    simp [h]

/-- Python `<=` on strings is transitive. -/
theorem pyStrLe_trans {a b c : String} (h1 : pyStrLe a b = true)
    (h2 : pyStrLe b c = true) : pyStrLe a c = true := by
  unfold pyStrLe pyStrLt at *
  rw [Bool.not_eq_true'] at h1 h2 ⊢
  by_contra hca
  rw [Bool.not_eq_false] at hca
  by_cases hbc : pyStrLtAux b.data c.data = true
  · have := pyStrLtAux_trans _ _ _ hbc hca
    simp [h1] at this
  · simp [Bool.not_eq_true] at hbc
    have hb : b.data = c.data := pyStrLtAux_conn _ _ hbc h2
    rw [← hb] at hca
    simp [h1] at hca

/-! ## Helper lemmas: reading cells of a well-formed row -/

/-- On a two-cell row the pandas read of `description` is the first cell. -/
theorem getCell_desc_eq (row : Nat × List String) (h : row.2.length = 2) :
    getCell ["description", "priority"] row.2 "description" = descField row := by
  obtain ⟨a, b, he⟩ := List.length_eq_two.mp h
  simp only [descField, he]
  rfl

/-- On a two-cell row the pandas read of `priority` is the second cell. -/
theorem getCell_prio_eq (row : Nat × List String) (h : row.2.length = 2) :
    getCell ["description", "priority"] row.2 "priority" = priorityField row := by
  obtain ⟨a, b, he⟩ := List.length_eq_two.mp h
  simp only [priorityField, he]
  rfl

/-- Realigning a rectangular row to the columns it already has is the
identity. -/
theorem alignCells_std (cells : List String) (h : cells.length = 2) :
    alignCells ["description", "priority"] cells ["description", "priority"] = cells := by
  obtain ⟨a, b, he⟩ := List.length_eq_two.mp h
  subst he
  rfl

/-- Comparing with `!=` is deciding disequality. -/
theorem str_bne_eq_decide (a d : String) : (a != d) = decide (¬ a = d) := by
  by_cases h : a = d <;> simp [h]

/-! ## Helper lemmas: CSV round trip -/

/-- Unescaping after `escQ` recovers the cell, up to the closing quote. -/
theorem parseQuoted_escQ (s : List Char) :
    ∀ rest : List Char, rest.head? ≠ some '"' →
      parseQuoted (escQ s ++ '"' :: rest) = (s, rest) := by
  induction s with
  | nil =>
    intro rest h
    cases rest with
    | nil => rfl
    | cons q rest2 =>
      have hq : q ≠ '"' := by
        intro e
        exact h (by simp [e])
      simp [escQ, parseQuoted, hq]
  | cons c cs ih =>
    intro rest h
    by_cases hc : c = '"'
    · subst hc
      simp only [escQ, if_pos rfl, List.cons_append]
      simp [parseQuoted, ih rest h]
    · simp only [escQ, if_neg hc, List.cons_append]
      rw [parseQuoted.eq_def]
      simp [hc, ih rest h]

/-- A separator-free cell written raw is read back whole when followed by a
cell boundary. -/
theorem parseBare_append (s : List Char) (hs : ∀ c ∈ s, ¬(c = ',' ∨ c = '\n')) :
    ∀ rest : List Char, sepStart rest = true → parseBare (s ++ rest) = (s, rest) := by
  induction s with
  | nil =>
    intro rest hr
    cases rest with
    | nil => rfl
    | cons c t =>
      have hsep : c = ',' ∨ c = '\n' := by
        simp [sepStart] at hr
        tauto
      simp [parseBare, hsep]
  | cons c cs ih =>
    intro rest hr
    have hc : ¬(c = ',' ∨ c = '\n') := hs c (by simp)
    simp only [List.cons_append]
    simp [parseBare, hc, ih (fun x hx => hs x (by simp [hx])) rest hr]

/-- An encoded cell is read back whole when followed by a cell boundary. -/
theorem parseCell_encodeCell (s : List Char) (rest : List Char)
    (hr : sepStart rest = true) : parseCell (encodeCell s ++ rest) = (s, rest) := by
  by_cases hq : needsQuote s = true
  · have hrq : rest.head? ≠ some '"' := by
      cases rest with
      | nil => simp
      | cons c t =>
        have hsep : c = ',' ∨ c = '\n' := by
          simp [sepStart] at hr
          tauto
        rcases hsep with h | h <;> simp [h]
    simp only [encodeCell, if_pos hq, List.cons_append, List.append_assoc,
      List.singleton_append]
    simp [parseCell, parseQuoted_escQ s rest hrq]
  · have hq2 : needsQuote s = false := by
      rwa [Bool.not_eq_true] at hq
    have hs : ∀ c ∈ s, ¬(c = ',' ∨ c = '\n') := by
      intro c hc hor
      have hfc := (List.any_eq_false.mp hq2) c hc
      rcases hor with h | h <;> simp [h] at hfc
    simp only [encodeCell, if_neg hq]
    cases s with
    | nil =>
      simp only [List.nil_append]
      cases rest with
      | nil => rfl
      | cons c t =>
        have hsep : c = ',' ∨ c = '\n' := by
          simp [sepStart] at hr
          tauto
        have hcq : c ≠ '"' := by
          rcases hsep with h | h <;> simp [h]
        simp [parseCell, hcq, parseBare, hsep]
    | cons c cs =>
      have hcq : c ≠ '"' := by
        intro e
        have hfc := (List.any_eq_false.mp hq2) c (by simp)
        simp [e] at hfc
      simp only [List.cons_append, parseCell, if_neg hcq]
      have := parseBare_append (c :: cs) hs rest hr
      simpa using this

/-- An encoded record is read back whole, consuming its newline, given
enough fuel. -/
theorem parseRowAuxF_encodeRow (cells : List (List Char)) (hne : cells ≠ []) :
    ∀ (fuel : Nat), cells.length ≤ fuel → ∀ rest : List Char,
      parseRowAuxF fuel (encodeRow cells ++ '\n' :: rest) = (cells, rest) := by
  induction cells with
  | nil => exact absurd rfl hne
  | cons c cs ih =>
    intro fuel hf rest
    cases fuel with
    | zero => simp at hf
    | succ f =>
      cases cs with
      | nil =>
        have hpc : parseCell (encodeCell c ++ '\n' :: rest) = (c, '\n' :: rest) :=
          parseCell_encodeCell c ('\n' :: rest) (by simp [sepStart])
        simp [parseRowAuxF, encodeRow, hpc]
      | cons c2 cs2 =>
        have hpc : parseCell (encodeCell c ++ ',' :: (encodeRow (c2 :: cs2) ++ '\n' :: rest))
            = (c, ',' :: (encodeRow (c2 :: cs2) ++ '\n' :: rest)) :=
          parseCell_encodeCell c _ (by simp [sepStart])
        have hassoc : encodeRow (c :: c2 :: cs2) ++ '\n' :: rest
            = encodeCell c ++ ',' :: (encodeRow (c2 :: cs2) ++ '\n' :: rest) := by
          simp [encodeRow]
        rw [hassoc]
        have hlen : (c2 :: cs2).length ≤ f := by
          simp only [List.length_cons] at hf ⊢
          omega
        have ihr := ih (by simp) f hlen rest
        simp [parseRowAuxF, hpc, ihr]

/-- A record has at most one more cell than its encoding has characters. -/
theorem encodeRow_length (cells : List (List Char)) :
    cells.length ≤ (encodeRow cells).length + 1 := by
  induction cells with
  | nil => simp
  | cons c cs ih =>
    cases cs with
    | nil => simp [encodeRow]
    | cons c2 cs2 =>
      simp only [encodeRow, List.length_append, List.length_cons] at ih ⊢
      omega

/-- A file has at least as many characters as records. -/
theorem encodeFile_length (rows : List (List (List Char))) :
    rows.length ≤ (encodeFile rows).length := by
  induction rows with
  | nil => simp [encodeFile]
  | cons r rs ih =>
    simp only [encodeFile, List.length_append, List.length_cons]
    omega

/-- An encoded file is read back record by record, given enough fuel, as
long as no record is empty or a lone empty cell (which `read_csv` would
skip as a blank line). -/
theorem parseRowsF_encodeFile (rows : List (List (List Char)))
    (h : ∀ r ∈ rows, r ≠ [] ∧ r ≠ [[]]) :
    ∀ fuel : Nat, rows.length ≤ fuel →
      parseRowsF fuel (encodeFile rows) = rows := by
  induction rows with
  | nil =>
    intro fuel _
    cases fuel <;> rfl
  | cons r rs ih =>
    intro fuel hf
    cases fuel with
    | zero => simp at hf
    | succ f =>
      obtain ⟨hr1, hr2⟩ := h r (by simp)
      have hne : encodeRow r ++ '\n' :: encodeFile rs ≠ [] := by
        cases hh : encodeRow r <;> simp
      have hlen : r.length ≤ (encodeRow r ++ '\n' :: encodeFile rs).length + 1 := by
        have hb := encodeRow_length r
        simp only [List.length_append, List.length_cons]
        omega
      have hrow := parseRowAuxF_encodeRow r hr1
        ((encodeRow r ++ '\n' :: encodeFile rs).length + 1) hlen (encodeFile rs)
      have hfs : rs.length ≤ f := by
        simp only [List.length_cons] at hf
        omega
      have ihr := ih (fun x hx => h x (by simp [hx])) f hfs
      simp only [List.length_append, List.length_cons] at hrow
      simp only [encodeFile]
      simp [parseRowsF, hne, hrow, hr2, ihr]

/-! ## Claim theorems -/

/-- C1 (code bug): `recommend_task` is specified to pick uniformly among
the tasks whose stored priority equals the label predicted for the first
row, but `random.choice` on the filtered pandas Series turns the uniform
position draw into an index-label lookup.  On the reachable state obtained
by removing the first of two tasks, the surviving row keeps label `1`, the
bucket has length `1`, so the only possible draw `0` raises `KeyError`
instead of returning the lone matching task. -/
theorem C1_recommend_label_lookup (r : Nat)
    (hr : r < (recommendBucket (fun _ => "Low") (remove_task twoTaskFrame "alpha")).length) :
    recommend_task (fun _ => "Low") (remove_task twoTaskFrame "alpha") r =
      RecommendResult.keyError := by
  have hlen : (recommendBucket (fun _ => "Low")
      (remove_task twoTaskFrame "alpha")).length = 1 := by decide
  rw [hlen] at hr
  have h0 : r = 0 := by omega
  subst h0
  decide

/-- C1, instantiated at the only draw `random.choice` can make there. -/
theorem C1_recommend_label_lookup_witness :
    0 < (recommendBucket (fun _ => "Low") (remove_task twoTaskFrame "alpha")).length ∧
    recommend_task (fun _ => "Low") (remove_task twoTaskFrame "alpha") 0 =
      RecommendResult.keyError :=
  ⟨by decide, C1_recommend_label_lookup 0 (by decide)⟩

/-- C3: `remove_task` saves but never retrains — the model field is exactly
the old one — while `add_task` saves and then refits the model on the
post-append table. -/
theorem C3_remove_no_retrain_add_retrains (fit : DataFrame → PModel) (tm : TMState)
    (d p dd : String) :
    (remove_taskM tm dd).model = tm.model ∧
    (remove_taskM tm dd).tasks = remove_task tm.tasks dd ∧
    (remove_taskM tm dd).file = some (to_csv (remove_task tm.tasks dd)) ∧
    (add_taskM fit tm d p).model = fit (add_task tm.tasks d p) ∧
    (add_taskM fit tm d p).tasks = add_task tm.tasks d p ∧
    (add_taskM fit tm d p).file = some (to_csv (add_task tm.tasks d p)) :=
  ⟨rfl, rfl, rfl, rfl, rfl, rfl⟩

/-- C5 (counterexample): with `tasks.csv` missing, startup *is* an error —
`__init__` catches only `FileNotFoundError`, keeps the empty table, and then
`train_model` fits the classifier on zero samples, which raises. -/
theorem C5_startup_missing_file_errors :
    tm_init fit0 none = Except.error InitError.emptyFit := rfl

/-- C5 (amended): a missing persisted file is the only caught load failure
and leaves the empty two-column table, but startup then fails anyway,
because `__init__` trains the classifier on that empty table. -/
theorem C5_amended_missing_file (fit : DataFrame → PModel) :
    load_tasks none = Except.ok emptyTasks ∧
    emptyTasks.columns = ["description", "priority"] ∧
    emptyTasks.rows = [] ∧
    (∀ s : String, load_tasks (some s) = read_csv s) ∧
    tm_init fit none = Except.error InitError.emptyFit :=
  ⟨rfl, rfl, rfl, fun _ => rfl, rfl⟩

/-- C8: in the menu's add flow, an input whose capitalization is not one of
Low/Medium/High is reported as invalid, the state (store, model, file) is
returned untouched, and the loop continues. -/
theorem C8_menu_rejects_invalid_priority (fit : DataFrame → PModel) (tm : TMState)
    (dsc pIn : String) (r : Nat)
    (h : pyCapitalize pIn ≠ "Low" ∧ pyCapitalize pIn ≠ "Medium" ∧
      pyCapitalize pIn ≠ "High") :
    menu_step fit tm "1" dsc pIn r =
      { state := tm, message := MenuMsg.invalidPriority, continues := true } := by
  have hcond : ¬(pyCapitalize pIn = "Low" ∨ pyCapitalize pIn = "Medium" ∨
      pyCapitalize pIn = "High") := by tauto
  simp [menu_step, hcond]

/-- C8, instantiated at the raw input `"urgent"`. -/
theorem C8_menu_rejects_invalid_priority_witness :
    pyCapitalize "urgent" ≠ "Low" ∧
    menu_step fit0 tm0 "1" "pay bills" "urgent" 0 =
      { state := tm0, message := MenuMsg.invalidPriority, continues := true } :=
  ⟨by decide, C8_menu_rejects_invalid_priority fit0 tm0 "pay bills" "urgent" 0
    (by refine ⟨?_, ?_, ?_⟩ <;> decide)⟩

/-- C9: `remove_task` is idempotent on the in-memory table, and removing a
description that matches no row leaves the table unchanged. -/
theorem C9_remove_idempotent (df : DataFrame) (d : String) :
    remove_task (remove_task df d) d = remove_task df d ∧
    ((∀ row ∈ df.rows, getCell df.columns row.2 "description" ≠ d) →
      remove_task df d = df) := by
  constructor
  · cases df with
    | mk cols rows =>
      simp only [remove_task]
      congr 1
      rw [List.filter_filter]
      simp
  · intro hno
    cases df with
    | mk cols rows =>
      simp only [remove_task, DataFrame.mk.injEq, true_and]
      apply List.filter_eq_self.mpr
      intro row hrow
      simpa [bne_iff_ne] using hno row hrow

/-- C9, instantiated at a description matching no row. -/
theorem C9_remove_idempotent_witness :
    remove_task (remove_task twoTaskFrame "gamma") "gamma" =
      remove_task twoTaskFrame "gamma" ∧
    remove_task twoTaskFrame "gamma" = twoTaskFrame :=
  ⟨(C9_remove_idempotent twoTaskFrame "gamma").1,
   (C9_remove_idempotent twoTaskFrame "gamma").2 (by decide)⟩

/-- C10: on a table with the two defined columns, `add_task`, `remove_task`
and `prioritize_tasks` all leave the column list exactly
`description, priority` — none adds, drops or renames a column. -/
theorem C10_two_columns_invariant (df : DataFrame) (d p d2 : String)
    (h : df.columns = ["description", "priority"]) :
    (add_task df d p).columns = ["description", "priority"] ∧
    (remove_task df d2).columns = ["description", "priority"] ∧
    (prioritize_tasks df).columns = ["description", "priority"] := by
  refine ⟨?_, h, h⟩
  simp only [add_task, dfConcatIgnoreIndex, singleTaskFrame, h]
  decide

/-- C10, instantiated at a concrete two-column table. -/
theorem C10_two_columns_invariant_witness :
    (add_task twoTaskFrame "email team" "Medium").columns =
      ["description", "priority"] ∧
    (remove_task twoTaskFrame "beta").columns = ["description", "priority"] ∧
    (prioritize_tasks twoTaskFrame).columns = ["description", "priority"] :=
  C10_two_columns_invariant twoTaskFrame "email team" "Medium" "beta" rfl

/-- C2: `remove_task` keeps exactly the rows whose description field
differs from the argument (exact, case-sensitive string comparison), all
duplicates of a matching description removed, the survivors in their
original relative order (a sublist), and the columns untouched. -/
theorem C2_remove_exact_matches (df : DataFrame) (d : String) (h : WF df) :
    (remove_task df d).rows =
      df.rows.filter (fun row => decide (descField row ≠ d)) ∧
    ((remove_task df d).rows).Sublist df.rows ∧
    (∀ row ∈ (remove_task df d).rows, descField row ≠ d) ∧
    (remove_task df d).columns = df.columns := by
  obtain ⟨hcols, hrows⟩ := h
  have hfe : (remove_task df d).rows =
      df.rows.filter (fun row => decide (descField row ≠ d)) := by
    simp only [remove_task]
    apply List.filter_congr
    intro row hrow
    rw [hcols, getCell_desc_eq row (hrows row hrow), str_bne_eq_decide]
  refine ⟨hfe, List.filter_sublist _, ?_, rfl⟩
  intro row hrow
  rw [hfe] at hrow
  simp only [List.mem_filter, decide_eq_true_eq] at hrow
  exact hrow.2

/-- C2, instantiated on a table with duplicate and case-variant
descriptions. -/
theorem C2_remove_exact_matches_witness :
    (remove_task dupFrame "buy milk").rows =
      dupFrame.rows.filter (fun row => decide (descField row ≠ "buy milk")) ∧
    ((remove_task dupFrame "buy milk").rows).Sublist dupFrame.rows ∧
    (∀ row ∈ (remove_task dupFrame "buy milk").rows, descField row ≠ "buy milk") ∧
    (remove_task dupFrame "buy milk").columns = dupFrame.columns :=
  C2_remove_exact_matches dupFrame "buy milk" (by decide)

/-- C4: `prioritize_tasks` permutes the rows into nondecreasing plain
string order of the priority cell, leaves the columns alone, and that order
is alphabetical: High before Low before Medium — not severity order. -/
theorem C4_sort_lexicographic (df : DataFrame) :
    ((prioritize_tasks df).rows).Perm df.rows ∧
    List.Sorted (fun a b => pyStrLe (priorityKey df a) (priorityKey df b) = true)
      (prioritize_tasks df).rows ∧
    (prioritize_tasks df).columns = df.columns ∧
    pyStrLt "High" "Low" = true ∧ pyStrLt "Low" "Medium" = true := by
  refine ⟨List.perm_insertionSort _ _, ?_, rfl, by decide, by decide⟩
  haveI ht : IsTotal (Nat × List String)
      (fun a b => pyStrLe (priorityKey df a) (priorityKey df b) = true) :=
    ⟨fun a b => pyStrLe_total _ _⟩
  haveI htr : IsTrans (Nat × List String)
      (fun a b => pyStrLe (priorityKey df a) (priorityKey df b) = true) :=
    ⟨fun _ _ _ h1 h2 => pyStrLe_trans h1 h2⟩
  exact List.sorted_insertionSort _ _

/-- Unfolding `read_csv` once the parse of the file content is known. -/
theorem read_csv_of_parse (s : String) (header : List (List Char))
    (dataRows : List (List (List Char)))
    (hp : parseRowsF (s.data.length + 1) s.data = header :: dataRows)
    (hall : dataRows.all (fun r => r.length ≤ header.length) = true) :
    read_csv s = .ok { columns := header.map (fun c => String.mk c)
                     , rows := (dataRows.map (fun r => r.map (fun c => String.mk c) ++
                         List.replicate (header.length - r.length) "NaN")).enum } := by
  unfold read_csv
  rw [hp]
  simp [hall]

/-- The full shape of `add_task` on a well-formed table: columns unchanged,
the new row's cells at the end, labels reassigned `0, 1, 2, …`. -/
theorem add_task_eq (df : DataFrame) (d p : String) (h : WF df) :
    add_task df d p =
      { columns := ["description", "priority"]
      , rows := (df.rows.map Prod.snd ++ [[d, p]]).enum } := by
  obtain ⟨hcols, hrows⟩ := h
  simp only [add_task, dfConcatIgnoreIndex, singleTaskFrame, hcols]
  have hcc : (["description", "priority"] ++ ["description", "priority"].filter
      (fun c => !(["description", "priority"].contains c))) = ["description", "priority"] := by
    decide
  rw [hcc]
  congr 1
  have hmap : df.rows.map (fun r => alignCells ["description", "priority"] r.2
      ["description", "priority"]) = df.rows.map Prod.snd := by
    apply List.map_congr_left
    intro row hrow
    exact alignCells_std row.2 (hrows row hrow)
  rw [hmap]
  rfl

/-- C7: on a well-formed table, `add_task` appends exactly one row holding
the given description and priority — no validation, no uniqueness check —
keeps every existing row's cells in their original order, and a subsequent
listing is never the empty-table message. -/
theorem C7_add_appends_one_row (df : DataFrame) (d p : String) (h : WF df) :
    (add_task df d p).columns = df.columns ∧
    (add_task df d p).rows.map Prod.snd = df.rows.map Prod.snd ++ [[d, p]] ∧
    list_tasks (add_task df d p) ≠ Listing.noTasks := by
  have hadd := add_task_eq df d p h
  obtain ⟨hcols, _⟩ := h
  refine ⟨by rw [hadd, hcols], ?_, ?_⟩
  · rw [hadd]
    simp [List.enum_map_snd]
  · rw [hadd, list_tasks]
    have hne : ((df.rows.map Prod.snd ++ [[d, p]]).enum).isEmpty = false := by
      by_contra hx
      rw [Bool.not_eq_false, List.isEmpty_iff] at hx
      have hlen := congrArg List.length hx
      simp at hlen
    simp [hne]

/-- C7, instantiated on a table already holding a duplicate description. -/
theorem C7_add_appends_one_row_witness :
    (add_task dupFrame "buy milk" "Low").columns = dupFrame.columns ∧
    (add_task dupFrame "buy milk" "Low").rows.map Prod.snd =
      dupFrame.rows.map Prod.snd ++ [["buy milk", "Low"]] ∧
    list_tasks (add_task dupFrame "buy milk" "Low") ≠ Listing.noTasks :=
  C7_add_appends_one_row dupFrame "buy milk" "Low" (by decide)

/-- The tokenization level of the save/load round trip: `to_csv` followed
by the `read_csv` tokenizer returns the same columns in order and the same
row texts in order (labels freshly assigned `0, 1, 2, …`, which is what
`read_csv` always produces since `to_csv(index=False)` writes none).  The
conversion stage on top of this is handled separately. -/
theorem read_csv_to_csv_text (df : DataFrame) (h : WF df) :
    read_csv (to_csv df) =
      .ok { columns := df.columns, rows := (df.rows.map Prod.snd).enum } := by
  obtain ⟨hcols, hrows⟩ := h
  have hlen2 : ∀ r : List (List Char), r.length = 2 → r ≠ [] ∧ r ≠ [[]] := by
    intro r hl
    constructor <;> intro he <;> subst he <;> simp at hl
  have hok : ∀ r ∈ (df.columns.map String.data) ::
      df.rows.map (fun r => r.2.map String.data), r ≠ [] ∧ r ≠ [[]] := by
    intro r hr
    rcases List.mem_cons.mp hr with he | hm
    · apply hlen2
      subst he
      simp [hcols]
    · obtain ⟨row, hm2, hre⟩ := List.mem_map.mp hm
      apply hlen2
      subst hre
      simp [hrows row hm2]
  have hfuel : ((df.columns.map String.data) ::
        df.rows.map (fun r => r.2.map String.data)).length ≤
      (to_csv df).data.length + 1 :=
    Nat.le_succ_of_le (encodeFile_length _)
  have hp : parseRowsF ((to_csv df).data.length + 1) (to_csv df).data =
      (df.columns.map String.data) :: df.rows.map (fun r => r.2.map String.data) :=
    parseRowsF_encodeFile _ hok _ hfuel
  have hall : (df.rows.map (fun r => r.2.map String.data)).all
      (fun r => r.length ≤ (df.columns.map String.data).length) = true := by
    rw [List.all_eq_true]
    intro r hr
    obtain ⟨row, hm2, hre⟩ := List.mem_map.mp hr
    subst hre
    simp [hcols, hrows row hm2]
  rw [read_csv_of_parse (to_csv df) _ _ hp hall]
  congr 1
  congr 1
  · rw [List.map_map]
    simp [Function.comp_def, string_mk_data]
  · congr 1
    rw [List.map_map]
    apply List.map_congr_left
    intro row hm2
    have hl : row.2.length = 2 := hrows row hm2
    simp [Function.comp_def, hcols, hl, List.map_map, string_mk_data]

/-- An integer-looking field is numeric-looking. -/
theorem intLike_numericLike (s : String) (h : intLike s = true) :
    numericLike s = true := by
  unfold intLike at h
  unfold numericLike
  cases hd : s.data with
  | nil =>
    rw [hd] at h
    simp [intLikeAux] at h
  | cons c rest =>
    rw [hd] at h
    simp only [intLikeAux] at h
    simp only [Bool.or_eq_true, Bool.and_eq_true, List.any_eq_true, List.all_eq_true]
    left
    by_cases hc : c = '-' ∨ c = '+'
    · rw [if_pos hc] at h
      simp only [Bool.and_eq_true, List.all_eq_true] at h
      obtain ⟨hne, hall⟩ := h
      cases rest with
      | nil => simp at hne
      | cons r0 rs =>
        refine ⟨⟨r0, by simp, hall r0 (by simp)⟩, ?_⟩
        intro x hx
        rcases List.mem_cons.mp hx with he | hm
        · subst he
          rcases hc with he2 | he2 <;> subst he2 <;> decide
        · simp [numericChar, hall x hm]
    · rw [if_neg hc] at h
      simp only [List.all_eq_true] at h
      refine ⟨⟨c, by simp, h c (by simp)⟩, ?_⟩
      intro x hx
      simp [numericChar, h x hx]

/-- What a plain-text field guarantees: it is no NA marker and no integer
literal. -/
theorem pdPlainText_facts (f : String) (h : pdPlainText f = true) :
    naStrings.contains f = false ∧ intLike f = false := by
  unfold pdPlainText at h
  simp only [Bool.and_eq_true, Bool.not_eq_true'] at h
  obtain ⟨⟨h1, h2⟩, _⟩ := h
  refine ⟨h1, ?_⟩
  by_contra hx
  rw [Bool.not_eq_false] at hx
  rw [intLike_numericLike f hx] at h2
  simp at h2

/-- No column of a frame of plain-text cells infers to an integer dtype. -/
theorem colIsInt_plain (df : DataFrame)
    (hplain : ∀ row ∈ df.rows, ∀ cell ∈ row.2, pdPlainText cell = true) (j : Nat) :
    colIsInt df j = false := by
  cases hrows : df.rows with
  | nil => simp [colIsInt, hrows]
  | cons r rs =>
    have hf : intLike ((r.2).getD j "") = false := by
      by_cases hj : j < (r.2).length
      · have hmem : (r.2).getD j "" ∈ r.2 := by
          rw [List.getD_eq_getElem _ _ hj]
          exact List.getElem_mem hj
        have hpl := hplain r (by rw [hrows]; exact List.mem_cons_self _ _) _ hmem
        exact (pdPlainText_facts _ hpl).2
      · have hdef : (r.2).getD j "" = "" := List.getD_eq_default _ _ (by omega)
        rw [hdef]
        rfl
    simp only [colIsInt, colFields, hrows, List.isEmpty_cons, List.map_cons,
      List.all_cons]
    rw [hf]
    simp

/-- The conversion stage is the identity (up to the `str` wrapper) on
frames of plain-text cells. -/
theorem pdConvertFrame_plain (df : DataFrame)
    (hplain : ∀ row ∈ df.rows, ∀ cell ∈ row.2, pdPlainText cell = true) :
    pdConvertFrame df =
      { columns := df.columns
      , rows := df.rows.map (fun r => (r.1, r.2.map PdValue.str)) } := by
  unfold pdConvertFrame
  simp only [PdFrame.mk.injEq, true_and]
  apply List.map_congr_left
  intro r hr
  have hcells := hplain r hr
  simp only [Prod.mk.injEq, true_and]
  have hmapeq : ∀ ic ∈ r.2.enum,
      pdConvertCell (colIsInt df ic.1) ic.2 = PdValue.str ic.2 := by
    intro ic hic
    have hmem : ic.2 ∈ r.2 := by
      have hm := List.mem_map_of_mem Prod.snd hic
      rwa [List.enum_map_snd] at hm
    have hfacts := pdPlainText_facts ic.2 (hcells ic.2 hmem)
    unfold pdConvertCell
    rw [colIsInt_plain df hplain ic.1, hfacts.1]
    simp
  rw [List.map_congr_left hmapeq]
  rw [show (fun ic : Nat × String => PdValue.str ic.2) =
      (PdValue.str ∘ Prod.snd) from rfl]
  rw [← List.map_map, List.enum_map_snd]

/-- C6 (amended): saving a well-formed task table whose every cell is
plain text for pandas — no default NA marker (the empty string included),
nothing numeric-looking, nothing boolean-looking — and loading the saved
file back yields exactly the same table: same column order, same row
order, every cell reloaded as the same text (labels freshly assigned
`0, 1, 2, …`, which `read_csv` always produces since `to_csv(index=False)`
writes none). -/
theorem C6_plain_text_roundtrip (df : DataFrame) (h : WF df)
    (hplain : ∀ row ∈ df.rows, ∀ cell ∈ row.2, pdPlainText cell = true) :
    pd_read_csv (to_csv df) =
      .ok { columns := df.columns
          , rows := ((df.rows.map Prod.snd).enum).map
              (fun p => (p.1, p.2.map PdValue.str)) } := by
  have htext := read_csv_to_csv_text df h
  unfold pd_read_csv
  rw [htext]
  have hplainT : ∀ row ∈ (df.rows.map Prod.snd).enum,
      ∀ cell ∈ row.2, pdPlainText cell = true := by
    intro row hrow cell hcell
    have h2 : row.2 ∈ df.rows.map Prod.snd := by
      have hm := List.mem_map_of_mem Prod.snd hrow
      rwa [List.enum_map_snd] at hm
    obtain ⟨row0, hm0, he0⟩ := List.mem_map.mp h2
    exact hplain row0 hm0 cell (by rw [he0]; exact hcell)
  simp only [Except.map]
  rw [pdConvertFrame_plain
    { columns := df.columns, rows := (df.rows.map Prod.snd).enum } hplainT]

/-- C6, instantiated on plain-text tables, one exercising the quoting path
(cells holding the delimiter, the quote character and a line break). -/
theorem C6_plain_text_roundtrip_witness :
    pd_read_csv (to_csv dupFrame) =
      .ok { columns := dupFrame.columns
          , rows := ((dupFrame.rows.map Prod.snd).enum).map
              (fun p => (p.1, p.2.map PdValue.str)) } ∧
    pd_read_csv (to_csv { columns := ["description", "priority"]
                        , rows := [(5, ["hello, world", "Hi\"gh"]),
                                   (2, ["line\nbreak", "Low"])] }) =
      .ok { columns := ["description", "priority"]
          , rows := [(0, [PdValue.str "hello, world", PdValue.str "Hi\"gh"]),
                     (1, [PdValue.str "line\nbreak", PdValue.str "Low"])] } :=
  ⟨C6_plain_text_roundtrip dupFrame (by decide) (by decide),
   C6_plain_text_roundtrip
     { columns := ["description", "priority"]
     , rows := [(5, ["hello, world", "Hi\"gh"]), (2, ["line\nbreak", "Low"])] }
     (by decide) (by decide)⟩

/-- C6 (counterexample): the unconditional round trip fails on reachable
well-formed tables.  An all-numeric description column reloads as int64
values — the saved text `"123"` comes back as the integer `123` — and an
empty description reloads as the missing value NaN, not as the saved empty
string. -/
theorem C6_roundtrip_counterexample :
    WF numFrame ∧
    pd_read_csv (to_csv numFrame) =
      .ok { columns := ["description", "priority"]
          , rows := [(0, [PdValue.int 123, PdValue.str "High"])] } ∧
    PdValue.int 123 ≠ PdValue.str "123" ∧
    WF naFrame ∧
    pd_read_csv (to_csv naFrame) =
      .ok { columns := ["description", "priority"]
          , rows := [(0, [PdValue.nan, PdValue.str "High"]),
                     (1, [PdValue.str "buy milk", PdValue.str "Low"])] } ∧
    PdValue.nan ≠ PdValue.str "" :=
  ⟨by decide, rfl, by decide, by decide, rfl, by decide⟩
